import Mathlib

/-!
Verification development for the sensor extraction and temporal alignment
engine of the Format-research repository (`Example/functions.py`).

The embedding mirrors the Python module:
* the zarr store is an association list of named groups, each an association
  list of named arrays (this is the read-only view the loaders use);
* `load_fiber_data`, `load_vibration_data`, `load_other` return `Except`
  values: Python `KeyError`/`ValueError` exceptions become constructors of
  `LoadError`, named after the spec error taxonomy (the Python code raises
  `KeyError` for a missing group and `ValueError` otherwise);
* `process_fibers` works on rows with an integer nanosecond timestamp and
  optional (nullable) sensor cells, reproducing `pandas.merge_asof` with
  nearest direction and inclusive tolerance;
* `process_vibration` works on rows with an optional rational timestamp in
  seconds, reproducing the cumsum/groupby block reconstruction pipeline
  with exact rational time arithmetic.
-/

namespace FormatResearch

/-- A named array inside a group: arrays are opaque to the loaders, which only
move them and compare lengths, so the element type is a parameter. -/
abbrev Group (α : Type) := List (String × List α)

/-- The zarr store: named groups. -/
abbrev Store (α : Type) := List (String × Group α)

/-- Error taxonomy of the reader boundary.  `GroupNotFound` carries the list
of available group names because the Python message enumerates them.
`LengthMismatch` carries both lengths, the offending dataset when the message
names one (the fiber loader does, the vibration loader does not), and the
group name. -/
inductive LoadError where
  | GroupNotFound (group : String) (available : List String)
  | DatasetNotFound (dataset : String) (group : String)
  | LengthMismatch (nTimestamps nValues : Nat) (dataset : Option String) (group : String)
  | EmptyGroup (group : String)
  | NoDataColumns (group : String)
deriving DecidableEq, Repr

/-- Group name pattern for a fiber: fibers_ followed by the fiber number. -/
def fiberGroupName (fiber_number : Int) : String :=
  "fibers_" ++ toString fiber_number

/-- Group name pattern for a vibration channel: vibration_ followed by the
channel number. -/
def vibrationGroupName (vibration_number : Int) : String :=
  "vibration_" ++ toString vibration_number

/-- The sensor-loading loop of `load_fiber_data`: for each requested sensor
number, dataset `str(s_num)` must exist and its length must match the
timestamp column, else the corresponding `ValueError` is raised; successful
sensors become columns named `sensor_\x7bs_num\x7d` in request order. -/
def load_sensor_columns {α : Type} (fiber_group : Group α) (group_name : String)
    (timestamps : List α) : List Int → Except LoadError (List (String × List α))
  | [] => .ok []
  | s_num :: rest =>
    match fiber_group.lookup (toString s_num) with
    | none => .error (.DatasetNotFound (toString s_num) group_name)
    | some values =>
      if values.length ≠ timestamps.length then
        .error (.LengthMismatch timestamps.length values.length (some (toString s_num)) group_name)
      else
        match load_sensor_columns fiber_group group_name timestamps rest with
        | .error e => .error e
        | .ok cols => .ok (("sensor_" ++ toString s_num, values) :: cols)

/-- The DataFrame returned by `load_fiber_data`: a `timestamp` column plus one
named column per requested sensor. -/
structure FiberDF (α : Type) where
  timestamp : List α
  sensors : List (String × List α)
deriving DecidableEq, Repr

/-- Loader `load_fiber_data`.  The Python argument `sensor_numbers` is an int
or a list of ints and an int is coerced to a singleton list first; the sum
type mirrors that. -/
def load_fiber_data {α : Type} (store : Store α) (fiber_number : Int)
    (sensor_numbers : Sum Int (List Int)) : Except LoadError (FiberDF α) :=
  let sns : List Int :=
    match sensor_numbers with
    | .inl k => [k]
    | .inr l => l
  let group_name := fiberGroupName fiber_number
  match store.lookup group_name with
  | none => .error (.GroupNotFound group_name (store.map Prod.fst))
  | some fiber_group =>
    match fiber_group.lookup "0" with
    | none => .error (.DatasetNotFound "0" group_name)
    | some timestamps =>
      match load_sensor_columns fiber_group group_name timestamps sns with
      | .error e => .error e
      | .ok cols => .ok ⟨timestamps, cols⟩

/-- The DataFrame returned by `load_vibration_data`: `timestamp` and `data`. -/
structure VibDF (α : Type) where
  timestamp : List α
  data : List α
deriving DecidableEq, Repr

/-- Loader `load_vibration_data`.  The Python code checks both dataset keys
with a single if-or condition raising one `ValueError` naming both; modelled
as one `DatasetNotFound`. -/
def load_vibration_data {α : Type} (store : Store α) (vibration_number : Int) :
    Except LoadError (VibDF α) :=
  let group_name := vibrationGroupName vibration_number
  match store.lookup group_name with
  | none => .error (.GroupNotFound group_name (store.map Prod.fst))
  | some vib_group =>
    match vib_group.lookup "Timestamp", vib_group.lookup "Data" with
    | some timestamps, some values =>
      if timestamps.length ≠ values.length then
        .error (.LengthMismatch timestamps.length values.length none group_name)
      else
        .ok ⟨timestamps, values⟩
    | _, _ => .error (.DatasetNotFound "Timestamp and Data" group_name)

/-- The DataFrame returned by `load_other`: optional timestamps plus the
remaining datasets in stored key order. -/
structure OtherDF (α : Type) where
  timestamp : Option (List α)
  columns : List (String × List α)
deriving DecidableEq, Repr

/-- Loader `load_other`. -/
def load_other {α : Type} (store : Store α) (group_name : String) :
    Except LoadError (OtherDF α) :=
  match store.lookup group_name with
  | none => .error (.GroupNotFound group_name (store.map Prod.fst))
  | some data_group =>
    let available_keys := data_group.map Prod.fst
    if available_keys.isEmpty then
      .error (.EmptyGroup group_name)
    else
      let timestamp_column : Option String :=
        if (data_group.lookup "__time_UTC__s__").isSome then
          some "__time_UTC__s__"
        else
          none
      let data_columns := available_keys.filter (fun key => !(timestamp_column == some key))
      if data_columns.isEmpty then
        .error (.NoDataColumns group_name)
      else
        .ok ⟨timestamp_column.bind (fun c => data_group.lookup c),
             data_columns.map (fun col => (col, (data_group.lookup col).getD []))⟩

/-! FiberAligner: `process_fibers` -/

/-- The 1 ms join tolerance in nanoseconds — fiber timestamps are interpreted
as nanosecond instants. -/
def tolNs : Int := 1000000

/-- One row of a fiber SensorTable as `process_fibers` receives it:
nanosecond timestamp and five nullable sensor cells. -/
structure FiberRow where
  timestamp : Int
  sensor_1 : Option Int
  sensor_2 : Option Int
  sensor_3 : Option Int
  sensor_4 : Option Int
  sensor_5 : Option Int
deriving DecidableEq, Repr, Inhabited

/-- Index of the last entry of `rts` that is `≤ t` (on ascending-sorted input
this is the backward asof candidate, exact matches allowed). -/
def lastLE : List Int → Int → Option Nat
  | [], _ => none
  | r :: rs, t =>
    match lastLE rs t with
    | some j => some (j + 1)
    | none => if r ≤ t then some 0 else none

/-- Index of the first entry of `rts` that is `≥ t` (on ascending-sorted input
this is the forward asof candidate, exact matches allowed). -/
def firstGE : List Int → Int → Option Nat
  | [], _ => none
  | r :: rs, t => if t ≤ r then some 0 else (firstGE rs t).map (· + 1)

/-- The backward asof candidate kept only within the (inclusive) tolerance. -/
def bwdCandidate (rts : List Int) (t tol : Int) : Option Nat :=
  match lastLE rts t with
  | some j => if t - rts.getD j 0 ≤ tol then some j else none
  | none => none

/-- The forward asof candidate kept only within the (inclusive) tolerance. -/
def fwdCandidate (rts : List Int) (t tol : Int) : Option Nat :=
  match firstGE rts t with
  | some j => if rts.getD j 0 - t ≤ tol then some j else none
  | none => none

/-- The right-row index chosen by the pandas nearest-direction asof merge with
tolerance `tol` for a left timestamp `t`: the backward and forward candidates
are each kept only within the (inclusive) tolerance, then the closer one wins
and a distance tie goes to the backward candidate. -/
def asofNearestIndex (rts : List Int) (t tol : Int) : Option Nat :=
  match bwdCandidate rts t tol, fwdCandidate rts t tol with
  | none, none => none
  | some j, none => some j
  | none, some j => some j
  | some jb, some jf => if t - rts.getD jb 0 ≤ rts.getD jf 0 - t then some jb else some jf

/-- One row of the asof-merge result: the left (fiber 1) timestamp, the
renamed fiber 1 cells, and the renamed fiber 2 cells — all null when the row
found no match within tolerance. -/
structure MergedFiberRow where
  timestamp : Int
  f_sensor_1_1 : Option Int
  f_sensor_1_2 : Option Int
  f_sensor_1_3 : Option Int
  f_sensor_1_4 : Option Int
  f_sensor_1_5 : Option Int
  f_sensor_2_1 : Option Int
  f_sensor_2_2 : Option Int
  f_sensor_2_3 : Option Int
  f_sensor_2_4 : Option Int
  f_sensor_2_5 : Option Int
deriving DecidableEq, Repr

/-- The asof-merge step of `process_fibers`: one output row per fiber 1
row, fiber 2 cells taken from the nearest-within-tolerance fiber 2 row or
null when there is none. -/
def merge_asof_nearest (fiber_1 fiber_2 : List FiberRow) (tol : Int) : List MergedFiberRow :=
  fiber_1.map (fun lr =>
    match asofNearestIndex (fiber_2.map (fun r => r.timestamp)) lr.timestamp tol with
    | none =>
      ⟨lr.timestamp, lr.sensor_1, lr.sensor_2, lr.sensor_3, lr.sensor_4, lr.sensor_5,
       none, none, none, none, none⟩
    | some j =>
      let rb := fiber_2.getD j default
      ⟨lr.timestamp, lr.sensor_1, lr.sensor_2, lr.sensor_3, lr.sensor_4, lr.sensor_5,
       rb.sensor_1, rb.sensor_2, rb.sensor_3, rb.sensor_4, rb.sensor_5⟩)

/-- A merged row after the column drop of `f_sensor_2_5`. -/
structure AlignedFiberRow where
  timestamp : Int
  f_sensor_1_1 : Option Int
  f_sensor_1_2 : Option Int
  f_sensor_1_3 : Option Int
  f_sensor_1_4 : Option Int
  f_sensor_1_5 : Option Int
  f_sensor_2_1 : Option Int
  f_sensor_2_2 : Option Int
  f_sensor_2_3 : Option Int
  f_sensor_2_4 : Option Int
deriving DecidableEq, Repr

/-- The column drop of `f_sensor_2_5` applied to one row. -/
def dropFSensor25 (r : MergedFiberRow) : AlignedFiberRow :=
  ⟨r.timestamp, r.f_sensor_1_1, r.f_sensor_1_2, r.f_sensor_1_3, r.f_sensor_1_4, r.f_sensor_1_5,
   r.f_sensor_2_1, r.f_sensor_2_2, r.f_sensor_2_3, r.f_sensor_2_4⟩

/-- The dropna predicate on the remaining cells of one row (the timestamp
cell is a non-null `Int` here). -/
def alignedRowHasNull (r : AlignedFiberRow) : Bool :=
  r.f_sensor_1_1.isNone || r.f_sensor_1_2.isNone || r.f_sensor_1_3.isNone ||
  r.f_sensor_1_4.isNone || r.f_sensor_1_5.isNone || r.f_sensor_2_1.isNone ||
  r.f_sensor_2_2.isNone || r.f_sensor_2_3.isNone || r.f_sensor_2_4.isNone

/-- Aligner `process_fibers`: rename, nearest asof join with 1 ms tolerance,
drop column `f_sensor_2_5`, drop rows holding a null. -/
def process_fibers (fiber_1 fiber_2 : List FiberRow) : List AlignedFiberRow :=
  ((merge_asof_nearest fiber_1 fiber_2 tolNs).map dropFSensor25).filter
    (fun r => !alignedRowHasNull r)

/-- Column names of a fiber SensorTable as loaded. -/
def fiberInputColumns : List String :=
  ["timestamp", "sensor_1", "sensor_2", "sensor_3", "sensor_4", "sensor_5"]

/-- The fiber 1 rename dictionary of `process_fibers`. -/
def renameFiber1 (c : String) : String :=
  if c = "sensor_1" then "f_sensor_1_1"
  else if c = "sensor_2" then "f_sensor_1_2"
  else if c = "sensor_3" then "f_sensor_1_3"
  else if c = "sensor_4" then "f_sensor_1_4"
  else if c = "sensor_5" then "f_sensor_1_5"
  else c

/-- The fiber 2 rename dictionary of `process_fibers`. -/
def renameFiber2 (c : String) : String :=
  if c = "sensor_1" then "f_sensor_2_1"
  else if c = "sensor_2" then "f_sensor_2_2"
  else if c = "sensor_3" then "f_sensor_2_3"
  else if c = "sensor_4" then "f_sensor_2_4"
  else if c = "sensor_5" then "f_sensor_2_5"
  else c

/-- Columns of the asof-merge result: left columns, then right columns with
the shared `timestamp` join key appearing once. -/
def mergedFiberColumns : List String :=
  fiberInputColumns.map renameFiber1 ++
    (fiberInputColumns.map renameFiber2).filter (fun c => c ≠ "timestamp")

/-- Columns of the table `process_fibers` returns, after dropping
`f_sensor_2_5` (`dropna` removes rows, not columns). -/
def processFibersColumns : List String :=
  mergedFiberColumns.filter (fun c => c ≠ "f_sensor_2_5")

/-! VibrationReconstructor: `process_vibration`.

Time is modelled as exact rational seconds since epoch; a sparse timestamp
cell is `Option ℚ` with `none` for a null (NaN/NaT) entry.  The pipeline
blocks equal the notna cumsum, block_start is the groupby transform-first
column (pandas first skips nulls), sample_index is the groupby cumcount, and
the timestamp becomes block_start plus sample_index over sample_rate, is
embedded per row index below. -/

/-- One row of a vibration channel table: sparse timestamp plus value. -/
structure VibChanRow where
  timestamp : Option ℚ
  data : ℚ
deriving DecidableEq, Repr, Inhabited

/-- Block id of row `i`: the running count of non-null anchors seen so far,
inclusive — the notna-cumsum column at row `i`. -/
def blocksAt (ts : List (Option ℚ)) (i : Nat) : Nat :=
  (ts.take (i + 1)).countP (fun t => t.isSome)

/-- Block start of row `i`: the groupby-transform-first column at row `i` —
the first non-null timestamp among the rows sharing the block id of row `i`
(pandas first skips nulls), null when the whole block is null. -/
def blockStartAt (ts : List (Option ℚ)) (i : Nat) : Option ℚ :=
  (((List.range ts.length).filter (fun j => blocksAt ts j == blocksAt ts i)).filterMap
    (fun j => ts.getD j none)).head?

/-- Sample index of row `i`: the groupby-cumcount column at row `i` — the
number of earlier rows sharing the block id of row `i`, i.e. its 0-based
position in the block. -/
def cumcountAt (ts : List (Option ℚ)) (i : Nat) : Nat :=
  ((List.range i).filter (fun j => blocksAt ts j == blocksAt ts i)).length

/-- The recomputed timestamp of row `i`: block start plus sample index divided
by the sample rate, in seconds; null when the block start is null. -/
def reconstructedAt (ts : List (Option ℚ)) (rate : ℚ) (i : Nat) : Option ℚ :=
  (blockStartAt ts i).map (fun bs => bs + (cumcountAt ts i : ℚ) / rate)

/-- One row of the table `process_vibration` returns. -/
structure VibOutRow where
  timestamp : Option ℚ
  vib_101 : ℚ
  vib_102 : ℚ
  vib_103 : ℚ
deriving DecidableEq, Repr, Inhabited

/-- Reconstructor `process_vibration`: rename the three `data` columns,
combine by row position (the
pandas column assignments align the default integer indices, i.e. positions,
under the spec precondition that all three tables have identical row count),
and reconstruct the dense timestamp from the sparse one of the base
channel. -/
def process_vibration (vibration_101 vibration_102 vibration_103 : List VibChanRow)
    (sample_rate : ℚ) : List VibOutRow :=
  let ts := vibration_101.map (fun r => r.timestamp)
  (List.range vibration_101.length).map (fun i =>
    { timestamp := reconstructedAt ts sample_rate i
      vib_101 := (vibration_101.getD i default).data
      vib_102 := (vibration_102.getD i default).data
      vib_103 := (vibration_103.getD i default).data })

/-! Concrete fixtures for witnesses, scenarios and counterexamples -/

/-- Spec scenario 3, fiber_a: timestamps 0 ms, 5 ms, 10 ms (in ns). -/
def fiberA3 : List FiberRow :=
  [⟨0, some 10, some 11, some 12, some 13, some 14⟩,
   ⟨5000000, some 20, some 21, some 22, some 23, some 24⟩,
   ⟨10000000, some 30, some 31, some 32, some 33, some 34⟩]

/-- Spec scenario 3, fiber_b: timestamps 1 ms, 4 ms, 9 ms (in ns). -/
def fiberB3 : List FiberRow :=
  [⟨1000000, some 40, some 41, some 42, some 43, some 44⟩,
   ⟨4000000, some 50, some 51, some 52, some 53, some 54⟩,
   ⟨9000000, some 60, some 61, some 62, some 63, some 64⟩]

/-- Spec scenario 4 base channel: anchors at rows 0 (t = 0 s) and 4
(t = 1 s), three null rows in between. -/
def vibScenario : List VibChanRow :=
  [⟨some 0, 7⟩, ⟨none, 8⟩, ⟨none, 9⟩, ⟨none, 10⟩, ⟨some 1, 11⟩]

/-- A base channel whose first rows carry no anchor: the first anchor sits at
row 2. -/
def vibLeadingNull : List VibChanRow :=
  [⟨none, 1⟩, ⟨none, 2⟩, ⟨some 5, 3⟩, ⟨none, 4⟩]

/-- Recognizer for the `DatasetNotFound` error kind. -/
def isDatasetNotFound : LoadError → Bool
  | .DatasetNotFound _ _ => true
  | _ => false

/-- The request list `sns` hits a missing sensor dataset before any other
failure: some requested sensor's key is absent from the group while every
earlier-requested sensor's dataset is present with the timestamp length. -/
def sensorKeyGap {α : Type} (g : Group α) (ts : List α) (sns : List Int) : Prop :=
  ∃ pre s post, sns = pre ++ s :: post ∧ g.lookup (toString s) = none ∧
    ∀ s2 ∈ pre, ∃ arr, g.lookup (toString s2) = some arr ∧ arr.length = ts.length

/-- A store with one fiber group holding a 2-long timestamp dataset, a 3-long
sensor dataset 1, and no dataset 2. -/
def storeMismatch : Store Int :=
  [("fibers_1", [("0", [0, 0]), ("1", [0, 0, 0])])]

/-- A store with one well-formed fiber group. -/
def storeFiberOk : Store Int :=
  [("fibers_1", [("0", [1, 2]), ("1", [3, 4])])]

/-- A store whose vibration group has 2 timestamps but 3 values. -/
def storeVibMismatch : Store Int :=
  [("vibration_1", [("Timestamp", [0, 1]), ("Data", [5, 6, 7])])]

/-! Helper lemmas about the asof join. -/

lemma lastLE_spec {t : Int} {j : Nat} :
    ∀ {rts : List Int}, lastLE rts t = some j → j < rts.length ∧ rts.getD j 0 ≤ t := by
  intro rts
  induction rts generalizing j with
  | nil => intro h; simp [lastLE] at h
  | cons r rs ih =>
    intro h
    cases hrec : lastLE rs t with
    | some j2 =>
      simp only [lastLE, hrec, Option.some.injEq] at h
      subst h
      obtain ⟨h1, h2⟩ := ih hrec
      constructor
      · simp only [List.length_cons]
        omega
      · simpa [List.getD_cons_succ] using h2
    | none =>
      simp only [lastLE, hrec] at h
      split at h
      · simp only [Option.some.injEq] at h
        subst h
        exact ⟨by simp, by simpa [List.getD_cons_zero] using ‹r ≤ t›⟩
      · cases h

lemma firstGE_spec {t : Int} {j : Nat} :
    ∀ {rts : List Int}, firstGE rts t = some j → j < rts.length ∧ t ≤ rts.getD j 0 := by
  intro rts
  induction rts generalizing j with
  | nil => intro h; simp [firstGE] at h
  | cons r rs ih =>
    intro h
    simp only [firstGE] at h
    split at h
    · simp only [Option.some.injEq] at h
      subst h
      exact ⟨by simp, by simpa [List.getD_cons_zero] using ‹t ≤ r›⟩
    · cases hrec : firstGE rs t with
      | some j2 =>
        rw [hrec] at h
        simp only [Option.map_some', Option.some.injEq] at h
        subst h
        obtain ⟨h1, h2⟩ := ih hrec
        constructor
        · simp only [List.length_cons]
          omega
        · simpa [List.getD_cons_succ] using h2
      | none =>
        rw [hrec] at h
        simp at h

lemma bwdCandidate_spec {rts : List Int} {t tol : Int} {j : Nat}
    (h : bwdCandidate rts t tol = some j) :
    j < rts.length ∧ rts.getD j 0 ≤ t ∧ t - rts.getD j 0 ≤ tol := by
  cases hl : lastLE rts t with
  | none => simp [bwdCandidate, hl] at h
  | some j2 =>
    simp only [bwdCandidate, hl] at h
    split at h
    · simp only [Option.some.injEq] at h
      subst h
      obtain ⟨h1, h2⟩ := lastLE_spec hl
      exact ⟨h1, h2, ‹_›⟩
    · cases h

lemma fwdCandidate_spec {rts : List Int} {t tol : Int} {j : Nat}
    (h : fwdCandidate rts t tol = some j) :
    j < rts.length ∧ t ≤ rts.getD j 0 ∧ rts.getD j 0 - t ≤ tol := by
  cases hl : firstGE rts t with
  | none => simp [fwdCandidate, hl] at h
  | some j2 =>
    simp only [fwdCandidate, hl] at h
    split at h
    · simp only [Option.some.injEq] at h
      subst h
      obtain ⟨h1, h2⟩ := firstGE_spec hl
      exact ⟨h1, h2, ‹_›⟩
    · cases h

lemma asofNearestIndex_spec {rts : List Int} {t tol : Int} {j : Nat}
    (h : asofNearestIndex rts t tol = some j) :
    j < rts.length ∧ |t - rts.getD j 0| ≤ tol := by
  cases hb : bwdCandidate rts t tol with
  | none =>
    cases hf : fwdCandidate rts t tol with
    | none => simp [asofNearestIndex, hb, hf] at h
    | some jf =>
      simp only [asofNearestIndex, hb, hf, Option.some.injEq] at h
      subst h
      obtain ⟨h1, h2, h3⟩ := fwdCandidate_spec hf
      refine ⟨h1, ?_⟩
      rw [abs_sub_le_iff]
      omega
  | some jb =>
    cases hf : fwdCandidate rts t tol with
    | none =>
      simp only [asofNearestIndex, hb, hf, Option.some.injEq] at h
      subst h
      obtain ⟨h1, h2, h3⟩ := bwdCandidate_spec hb
      refine ⟨h1, ?_⟩
      rw [abs_sub_le_iff]
      omega
    | some jf =>
      simp only [asofNearestIndex, hb, hf] at h
      split at h
      · simp only [Option.some.injEq] at h
        subst h
        obtain ⟨h1, h2, h3⟩ := bwdCandidate_spec hb
        refine ⟨h1, ?_⟩
        rw [abs_sub_le_iff]
        omega
      · simp only [Option.some.injEq] at h
        subst h
        obtain ⟨h1, h2, h3⟩ := fwdCandidate_spec hf
        refine ⟨h1, ?_⟩
        rw [abs_sub_le_iff]
        omega

/-! Helper lemmas about the loaders. -/

lemma load_fiber_data_no_timestamp {α : Type} (store : Store α) (fn : Int) (sns : List Int)
    {g : Group α} (hg : store.lookup (fiberGroupName fn) = some g)
    (h0 : g.lookup "0" = none) :
    load_fiber_data store fn (.inr sns) =
      .error (.DatasetNotFound "0" (fiberGroupName fn)) := by
  simp [load_fiber_data, hg, h0]

lemma load_fiber_data_with_timestamp {α : Type} (store : Store α) (fn : Int) (sns : List Int)
    {g : Group α} {ts : List α} (hg : store.lookup (fiberGroupName fn) = some g)
    (h0 : g.lookup "0" = some ts) :
    load_fiber_data store fn (.inr sns) =
      match load_sensor_columns g (fiberGroupName fn) ts sns with
      | .error e => .error e
      | .ok cols => .ok ⟨ts, cols⟩ := by
  cases hsc : load_sensor_columns g (fiberGroupName fn) ts sns with
  | error e => simp [load_fiber_data, hg, h0, hsc]
  | ok cols => simp [load_fiber_data, hg, h0, hsc]

lemma load_sensor_columns_ok_lengths {α : Type} (g : Group α) (gname : String) (ts : List α) :
    ∀ (sns : List Int) (cols : List (String × List α)),
      load_sensor_columns g gname ts sns = .ok cols →
      ∀ c ∈ cols, c.2.length = ts.length := by
  intro sns
  induction sns with
  | nil =>
    intro cols h c hc
    simp only [load_sensor_columns] at h
    cases h
    simp at hc
  | cons s rest ih =>
    intro cols h c hc
    simp only [load_sensor_columns] at h
    cases hl : g.lookup (toString s) with
    | none => simp [hl] at h
    | some values =>
      simp only [hl] at h
      by_cases hlen : values.length ≠ ts.length
      · rw [if_pos hlen] at h
        cases h
      · rw [if_neg hlen] at h
        cases hsc : load_sensor_columns g gname ts rest with
        | error e => simp [hsc] at h
        | ok cols2 =>
          simp only [hsc] at h
          have hcols : ("sensor_" ++ toString s, values) :: cols2 = cols := by
            simpa using h
          subst hcols
          rcases List.mem_cons.mp hc with hc1 | hc2
          · subst hc1
            simpa using not_ne_iff.mp hlen
          · exact ih cols2 hsc c hc2

lemma load_sensor_columns_mismatch {α : Type} (g : Group α) (gname : String) (ts : List α) :
    ∀ (sns : List Int),
      (∀ s ∈ sns, ∃ arr, g.lookup (toString s) = some arr) →
      (∃ s ∈ sns, ∃ arr, g.lookup (toString s) = some arr ∧ arr.length ≠ ts.length) →
      ∃ nt nv d, load_sensor_columns g gname ts sns =
        .error (.LengthMismatch nt nv d gname) := by
  intro sns
  induction sns with
  | nil =>
    intro _ hmm
    rcases hmm with ⟨s, hs, _⟩
    exact absurd hs (List.not_mem_nil s)
  | cons s rest ih =>
    intro hpres hmm
    obtain ⟨values, hv⟩ := hpres s (List.mem_cons_self s rest)
    by_cases hlen : values.length ≠ ts.length
    · exact ⟨ts.length, values.length, some (toString s),
        by simp only [load_sensor_columns, hv, if_pos hlen]⟩
    · have hmm2 : ∃ s2 ∈ rest, ∃ arr,
          g.lookup (toString s2) = some arr ∧ arr.length ≠ ts.length := by
        rcases hmm with ⟨s2, hs2, arr, harr, hne⟩
        rcases List.mem_cons.mp hs2 with h | h
        · subst h
          rw [hv] at harr
          cases harr
          exact absurd hne hlen
        · exact ⟨s2, h, arr, harr, hne⟩
      obtain ⟨nt, nv, d, herr⟩ := ih (fun s2 hs2 => hpres s2 (List.mem_cons_of_mem _ hs2)) hmm2
      exact ⟨nt, nv, d, by simp only [load_sensor_columns, hv, if_neg hlen, herr]⟩

lemma load_sensor_columns_dnf_iff {α : Type} (g : Group α) (gname : String) (ts : List α) :
    ∀ (sns : List Int),
      (∃ e, load_sensor_columns g gname ts sns = .error e ∧ isDatasetNotFound e = true) ↔
        sensorKeyGap g ts sns := by
  intro sns
  induction sns with
  | nil =>
    constructor
    · rintro ⟨e, he, -⟩
      simp [load_sensor_columns] at he
    · rintro ⟨pre, s, post, habs, -, -⟩
      exact absurd habs (by cases pre <;> simp)
  | cons s0 rest ih =>
    cases hl : g.lookup (toString s0) with
    | none =>
      constructor
      · intro _
        exact ⟨[], s0, rest, rfl, hl, by simp⟩
      · intro _
        exact ⟨.DatasetNotFound (toString s0) gname,
          by simp only [load_sensor_columns, hl], rfl⟩
    | some values =>
      by_cases hlen : values.length ≠ ts.length
      · constructor
        · rintro ⟨e, he, hkind⟩
          simp only [load_sensor_columns, hl, if_pos hlen] at he
          cases he
          simp [isDatasetNotFound] at hkind
        · rintro ⟨pre, s, post, hdec, hmiss, hpre⟩
          cases pre with
          | nil =>
            injection hdec with h1 h2
            rw [← h1, hl] at hmiss
            cases hmiss
          | cons p ps =>
            injection hdec with h1 h2
            obtain ⟨arr, harr, hlen2⟩ := hpre p (List.mem_cons_self p ps)
            rw [← h1, hl] at harr
            cases harr
            exact absurd hlen2 hlen
      · have hstep : load_sensor_columns g gname ts (s0 :: rest) =
            match load_sensor_columns g gname ts rest with
            | .error e => .error e
            | .ok cols => .ok (("sensor_" ++ toString s0, values) :: cols) := by
          simp only [load_sensor_columns, hl, if_neg hlen]
        rw [hstep]
        cases hrec : load_sensor_columns g gname ts rest with
        | error e2 =>
          constructor
          · rintro ⟨e, he, hkind⟩
            have he2 : (Except.error e2 :
                Except LoadError (List (String × List α))) = .error e := he
            cases he2
            obtain ⟨pre, s, post, hdec, hmiss, hpre⟩ := ih.mp ⟨e2, hrec, hkind⟩
            refine ⟨s0 :: pre, s, post, by rw [hdec]; rfl, hmiss, ?_⟩
            intro s2 hs2
            rcases List.mem_cons.mp hs2 with h | h
            · subst h
              exact ⟨values, hl, not_ne_iff.mp hlen⟩
            · exact hpre s2 h
          · rintro ⟨pre, s, post, hdec, hmiss, hpre⟩
            have hgaprest : sensorKeyGap g ts rest := by
              cases pre with
              | nil =>
                injection hdec with h1 h2
                rw [← h1, hl] at hmiss
                cases hmiss
              | cons p ps =>
                injection hdec with h1 h2
                exact ⟨ps, s, post, h2, hmiss,
                  fun s2 hs2 => hpre s2 (List.mem_cons_of_mem _ hs2)⟩
            obtain ⟨e, herr, hkind⟩ := ih.mpr hgaprest
            rw [hrec] at herr
            cases herr
            exact ⟨e2, rfl, hkind⟩
        | ok cols =>
          constructor
          · rintro ⟨e, he, -⟩
            have he2 : (Except.ok (("sensor_" ++ toString s0, values) :: cols) :
                Except LoadError (List (String × List α))) = .error e := he
            cases he2
          · rintro ⟨pre, s, post, hdec, hmiss, hpre⟩
            exfalso
            have hgaprest : sensorKeyGap g ts rest := by
              cases pre with
              | nil =>
                injection hdec with h1 h2
                rw [← h1, hl] at hmiss
                cases hmiss
              | cons p ps =>
                injection hdec with h1 h2
                exact ⟨ps, s, post, h2, hmiss,
                  fun s2 hs2 => hpre s2 (List.mem_cons_of_mem _ hs2)⟩
            obtain ⟨e, herr, -⟩ := ih.mpr hgaprest
            rw [hrec] at herr
            cases herr

/-! Claim theorems about the fiber aligner. -/

/-- C2 (counterexample): on the scenario-3 inputs the row derived from the
0 ms fiber_a row is NOT dropped — all three left rows survive, so the output
timestamp list still contains 0.  The 1 ms tolerance is inclusive, and the
0 ms row matches the 1 ms fiber_b row at a delta of exactly 1 ms. -/
theorem process_fibers_scenario3_zero_row_kept :
    (process_fibers fiberA3 fiberB3).map (fun r => r.timestamp) =
      [0, 5000000, 10000000] := by
  decide

/-- C2 (amended): with fiber_a at 0/5/10 ms and fiber_b at 1/4/9 ms under the
inclusive 1 ms tolerance, the 0 ms row matches the 1 ms fiber_b row, the 5 ms
row matches the 4 ms row, and the 10 ms row matches the 9 ms row — each with
a 1 ms delta — and all three rows are kept. -/
theorem process_fibers_scenario3_eval :
    process_fibers fiberA3 fiberB3 =
      [⟨0, some 10, some 11, some 12, some 13, some 14,
        some 40, some 41, some 42, some 43⟩,
       ⟨5000000, some 20, some 21, some 22, some 23, some 24,
        some 50, some 51, some 52, some 53⟩,
       ⟨10000000, some 30, some 31, some 32, some 33, some 34,
        some 60, some 61, some 62, some 63⟩] := by
  decide

/-- C3: for ascending-sorted inputs, every row of the output of
`process_fibers` pairs its fiber_a timestamp with some fiber_b row whose
timestamp lies within the 1 ms tolerance. -/
theorem process_fibers_within_tolerance :
    ∀ (fiber_1 fiber_2 : List FiberRow),
      List.Sorted (· ≤ ·) (fiber_1.map (fun r => r.timestamp)) →
      List.Sorted (· ≤ ·) (fiber_2.map (fun r => r.timestamp)) →
      ∀ r ∈ process_fibers fiber_1 fiber_2,
        ∃ rb ∈ fiber_2, |r.timestamp - rb.timestamp| ≤ tolNs := by
  intro f1 f2 hs1 hs2 r hr
  unfold process_fibers at hr
  rw [List.mem_filter] at hr
  obtain ⟨hmem, hnn⟩ := hr
  rw [List.mem_map] at hmem
  obtain ⟨m, hm, rfl⟩ := hmem
  unfold merge_asof_nearest at hm
  rw [List.mem_map] at hm
  obtain ⟨lr, hlr, rfl⟩ := hm
  cases hidx : asofNearestIndex (f2.map (fun r => r.timestamp)) lr.timestamp tolNs with
  | none =>
    exfalso
    rw [hidx] at hnn
    simp [dropFSensor25, alignedRowHasNull] at hnn
  | some j =>
    obtain ⟨hj, habs⟩ := asofNearestIndex_spec hidx
    rw [List.length_map] at hj
    have hgd : (f2.map (fun r => r.timestamp)).getD j 0 = (f2.getD j default).timestamp := by
      rw [List.getD_eq_getElem _ _ (by simpa using hj), List.getD_eq_getElem _ _ hj]
      simp
    refine ⟨f2.getD j default, ?_, ?_⟩
    · rw [List.getD_eq_getElem _ _ hj]
      exact List.getElem_mem hj
    · show |lr.timestamp - (f2.getD j default).timestamp| ≤ tolNs
      rw [← hgd]
      exact habs

/-- C3 witness at scenario-3 inputs (both sorted): the first output row is
within 1 ms of some fiber_b row. -/
theorem process_fibers_within_tolerance_witness :
    ∃ rb ∈ fiberB3,
      |(AlignedFiberRow.mk 0 (some 10) (some 11) (some 12) (some 13) (some 14)
          (some 40) (some 41) (some 42) (some 43)).timestamp - rb.timestamp| ≤ tolNs :=
  process_fibers_within_tolerance fiberA3 fiberB3 (by decide) (by decide)
    (AlignedFiberRow.mk 0 (some 10) (some 11) (some 12) (some 13) (some 14)
      (some 40) (some 41) (some 42) (some 43)) (by decide)

/-- C7: the output of `process_fibers` has no column named f_sensor_2_5 and
no surviving row holds a null cell. -/
theorem process_fibers_no_dropped_column_no_nulls :
    "f_sensor_2_5" ∉ processFibersColumns ∧
    ∀ (fiber_1 fiber_2 : List FiberRow) (r : AlignedFiberRow),
      r ∈ process_fibers fiber_1 fiber_2 → alignedRowHasNull r = false := by
  constructor
  · decide
  · intro f1 f2 r hr
    unfold process_fibers at hr
    rw [List.mem_filter] at hr
    simpa using hr.2

/-- C7 witness: the first output row of the scenario-3 run has no null. -/
theorem process_fibers_no_dropped_column_no_nulls_witness :
    alignedRowHasNull
      (AlignedFiberRow.mk 0 (some 10) (some 11) (some 12) (some 13) (some 14)
        (some 40) (some 41) (some 42) (some 43)) = false :=
  process_fibers_no_dropped_column_no_nulls.2 fiberA3 fiberB3
    (AlignedFiberRow.mk 0 (some 10) (some 11) (some 12) (some 13) (some 14)
      (some 40) (some 41) (some 42) (some 43)) (by decide)

/-- C8: `process_fibers` is a pure function of its argument values — equal
inputs give equal outputs. -/
theorem process_fibers_deterministic :
    ∀ (f1 f2 g1 g2 : List FiberRow), f1 = g1 → f2 = g2 →
      process_fibers f1 f2 = process_fibers g1 g2 := by
  intro f1 f2 g1 g2 h1 h2
  rw [h1, h2]

/-- C8 witness at the scenario-3 inputs. -/
theorem process_fibers_deterministic_witness :
    process_fibers fiberA3 fiberB3 = process_fibers fiberA3 fiberB3 :=
  process_fibers_deterministic fiberA3 fiberB3 fiberA3 fiberB3 rfl rfl

/-- C9: passing a bare sensor number to `load_fiber_data` behaves exactly as
passing the singleton list holding it. -/
theorem load_fiber_data_int_coercion :
    ∀ (α : Type) (store : Store α) (fiber_number k : Int),
      load_fiber_data store fiber_number (.inl k) =
        load_fiber_data store fiber_number (.inr [k]) := by
  intro α store fn k
  rfl

/-! Helper lemmas about the block reconstruction. -/

lemma countP_take_mono {α : Type} (l : List α) (p : α → Bool) {m n : Nat} (h : m ≤ n) :
    (l.take m).countP p ≤ (l.take n).countP p := by
  have hd : l.take n = l.take m ++ (l.drop m).take (n - m) := by
    rw [← List.take_add]
    congr 1
    omega
  rw [hd, List.countP_append]
  omega

lemma blocksAt_mono (ts : List (Option ℚ)) {j i : Nat} (h : j ≤ i) :
    blocksAt ts j ≤ blocksAt ts i :=
  countP_take_mono ts _ (by omega)

lemma take_succ_getElem {α : Type} (ts : List α) {i : Nat} (hi : i < ts.length) :
    ts.take (i + 1) = ts.take i ++ [ts[i]] := by
  rw [List.take_succ, List.getElem?_eq_getElem hi]
  rfl

lemma blocksAt_lt (ts : List (Option ℚ)) {j i : Nat} (hj : j < i) (hi : i < ts.length)
    (hs : (ts.getD i none).isSome = true) : blocksAt ts j < blocksAt ts i := by
  unfold blocksAt
  rw [take_succ_getElem ts hi, List.countP_append]
  have h2 : (ts.take (j + 1)).countP (fun t => t.isSome) ≤
      (ts.take i).countP (fun t => t.isSome) :=
    countP_take_mono ts _ (by omega)
  have h3 : List.countP (fun t => t.isSome) [ts[i]] = 1 := by
    have hsi : ts[i].isSome = true := by rwa [List.getD_eq_getElem _ _ hi] at hs
    simp [List.countP_cons, hsi]
  omega

lemma blocksAt_pos (ts : List (Option ℚ)) {i : Nat} (hi : i < ts.length)
    (hs : (ts.getD i none).isSome = true) : 0 < blocksAt ts i := by
  unfold blocksAt
  rw [List.countP_pos_iff]
  refine ⟨ts[i], ?_, ?_⟩
  · rw [take_succ_getElem ts hi]
    exact List.mem_append_right _ (List.mem_singleton_self _)
  · rwa [List.getD_eq_getElem _ _ hi] at hs

lemma anchor_unique (ts : List (Option ℚ)) {j k : Nat} (hj : j < ts.length) (hk : k < ts.length)
    (hsj : (ts.getD j none).isSome = true) (hsk : (ts.getD k none).isSome = true)
    (hb : blocksAt ts j = blocksAt ts k) : j = k := by
  rcases Nat.lt_trichotomy j k with h | h | h
  · exact absurd hb (Nat.ne_of_lt (blocksAt_lt ts h hk hsk))
  · exact h
  · exact absurd hb.symm (Nat.ne_of_lt (blocksAt_lt ts h hj hsj))

lemma head_filterMap_unique {α β : Type} (f : α → Option β) (j : α) (b : β) :
    ∀ (L : List α), j ∈ L → f j = some b → (∀ x ∈ L, f x ≠ none → x = j) →
      (L.filterMap f).head? = some b := by
  intro L
  induction L with
  | nil => intro hmem; exact absurd hmem (List.not_mem_nil j)
  | cons x xs ih =>
    intro hmem hfj huniq
    cases hfx : f x with
    | some y =>
      have hx : x = j := huniq x (List.mem_cons_self x xs) (by simp [hfx])
      subst hx
      rw [List.filterMap_cons_some hfj]
      simp
    | none =>
      have hjxs : j ∈ xs := by
        rcases List.mem_cons.mp hmem with h | h
        · subst h
          rw [hfx] at hfj
          cases hfj
        · exact h
      rw [List.filterMap_cons_none hfx]
      exact ih hjxs hfj (fun z hz hnz => huniq z (List.mem_cons_of_mem _ hz) hnz)

lemma blockStartAt_eq_anchor (ts : List (Option ℚ)) {i j : Nat} {a : ℚ}
    (_hi : i < ts.length) (hj : j < ts.length) (ha : ts.getD j none = some a)
    (hb : blocksAt ts j = blocksAt ts i) : blockStartAt ts i = some a := by
  unfold blockStartAt
  apply head_filterMap_unique (fun k => ts.getD k none) j a
  · rw [List.mem_filter]
    exact ⟨List.mem_range.mpr hj, by simpa using hb⟩
  · exact ha
  · intro x hx hnx
    rw [List.mem_filter, List.mem_range] at hx
    obtain ⟨hxlen, hxb⟩ := hx
    have hxb2 : blocksAt ts x = blocksAt ts i := by simpa using hxb
    exact anchor_unique ts hxlen hj (Option.ne_none_iff_isSome.mp hnx)
      (by rw [ha]; rfl) (hxb2.trans hb.symm)

lemma blocksAt_zero_of_prefix_none (ts : List (Option ℚ)) {i : Nat}
    (h : ∀ k, k ≤ i → ts.getD k none = none) : blocksAt ts i = 0 := by
  unfold blocksAt
  rw [List.countP_eq_zero]
  intro t ht
  obtain ⟨k, hk, hkt⟩ := List.getElem_of_mem ht
  rw [List.length_take] at hk
  have hk1 : k < ts.length := by omega
  have hk2 : k ≤ i := by omega
  have hts : ts[k] = t := by
    rw [← hkt]
    exact (List.getElem_take ts).symm
  have : ts.getD k none = none := h k hk2
  rw [List.getD_eq_getElem _ _ hk1, hts] at this
  simp [this]

lemma blockStartAt_none_of_block_zero (ts : List (Option ℚ)) {i : Nat}
    (h0 : blocksAt ts i = 0) : blockStartAt ts i = none := by
  unfold blockStartAt
  have hnil : ((List.range ts.length).filter
      (fun j => blocksAt ts j == blocksAt ts i)).filterMap (fun j => ts.getD j none) = [] := by
    rw [List.filterMap_eq_nil_iff]
    intro x hx
    rw [List.mem_filter, List.mem_range] at hx
    obtain ⟨hxlen, hxb⟩ := hx
    by_contra hne
    have hys : (ts.getD x none).isSome = true := Option.ne_none_iff_isSome.mp hne
    have hpos := blocksAt_pos ts hxlen hys
    have hxb2 : blocksAt ts x = blocksAt ts i := by simpa using hxb
    omega
  rw [hnil]
  rfl

lemma reconstructedAt_eval (ts : List (Option ℚ)) (rate : ℚ) (i : Nat) (bs : ℚ) (k : Nat)
    (h1 : blockStartAt ts i = some bs) (h2 : cumcountAt ts i = k) :
    reconstructedAt ts rate i = some (bs + (k : ℚ) / rate) := by
  simp [reconstructedAt, h1, h2]

lemma reconstructedAt_anchor (ts : List (Option ℚ)) (rate : ℚ) {i j : Nat} {a : ℚ}
    (hi : i < ts.length) (hj : j < ts.length) (ha : ts.getD j none = some a)
    (hb : blocksAt ts j = blocksAt ts i) :
    reconstructedAt ts rate i = some (a + (cumcountAt ts i : ℚ) / rate) := by
  unfold reconstructedAt
  rw [blockStartAt_eq_anchor ts hi hj ha hb]
  rfl

lemma process_vibration_timestamp (v101 v102 v103 : List VibChanRow) (rate : ℚ) {i : Nat}
    (hi : i < v101.length) :
    ((process_vibration v101 v102 v103 rate).getD i default).timestamp =
      reconstructedAt (v101.map (fun r => r.timestamp)) rate i := by
  unfold process_vibration
  rw [List.getD_eq_getElem _ _ (by simpa using hi)]
  simp

/-! Claim theorems about the vibration reconstructor. -/

/-- C1: in any accepted input, a row whose block holds an anchor with instant
`a` gets the reconstructed timestamp `a` plus its 0-based position in the
block divided by the sample rate; in particular, on the scenario-4 channel
(anchors at rows 0 and 4 with instants 0 s and 1 s, sample rate 4) the five
reconstructed timestamps are 0, 1/4, 1/2, 3/4 and 1 seconds. -/
theorem process_vibration_reconstructs_anchor_offset :
    (∀ (v101 v102 v103 : List VibChanRow) (rate : ℚ) (i j : Nat) (a : ℚ),
        0 < rate → i < v101.length → j < v101.length →
        (v101.map (fun r => r.timestamp)).getD j none = some a →
        blocksAt (v101.map (fun r => r.timestamp)) j =
          blocksAt (v101.map (fun r => r.timestamp)) i →
        ((process_vibration v101 v102 v103 rate).getD i default).timestamp =
          some (a + (cumcountAt (v101.map (fun r => r.timestamp)) i : ℚ) / rate)) ∧
    (process_vibration vibScenario vibScenario vibScenario 4).map (fun r => r.timestamp) =
      [some 0, some (1/4), some (1/2), some (3/4), some 1] := by
  constructor
  · intro v101 v102 v103 rate i j a _ hi hj ha hb
    rw [process_vibration_timestamp v101 v102 v103 rate hi]
    exact reconstructedAt_anchor _ rate (by simpa using hi) (by simpa using hj) ha hb
  · show [reconstructedAt (vibScenario.map (fun r => r.timestamp)) 4 0,
          reconstructedAt (vibScenario.map (fun r => r.timestamp)) 4 1,
          reconstructedAt (vibScenario.map (fun r => r.timestamp)) 4 2,
          reconstructedAt (vibScenario.map (fun r => r.timestamp)) 4 3,
          reconstructedAt (vibScenario.map (fun r => r.timestamp)) 4 4] = _
    rw [reconstructedAt_eval _ _ _ 0 0 (by decide) (by decide),
        reconstructedAt_eval _ _ _ 0 1 (by decide) (by decide),
        reconstructedAt_eval _ _ _ 0 2 (by decide) (by decide),
        reconstructedAt_eval _ _ _ 0 3 (by decide) (by decide),
        reconstructedAt_eval _ _ _ 1 0 (by decide) (by decide)]
    norm_num

/-- C1 witness: row 2 of the scenario-4 channel, anchored at row 0 with
instant 0 s, reconstructed at sample rate 4. -/
theorem process_vibration_reconstructs_anchor_offset_witness :
    (0 : ℚ) < 4 ∧
    ((process_vibration vibScenario vibScenario vibScenario 4).getD 2 default).timestamp =
      some (0 + (cumcountAt (vibScenario.map (fun r => r.timestamp)) 2 : ℚ) / 4) :=
  ⟨by norm_num,
   process_vibration_reconstructs_anchor_offset.1 vibScenario vibScenario vibScenario 4 2 0 0
     (by norm_num) (by decide) (by decide) (by decide) (by decide)⟩

/-- C10: `process_vibration` is total even without a leading anchor — the
output always has one row per input row; every row at or before which all
timestamps are null sits in block 0 and gets a null reconstructed timestamp;
and any row whose block holds an anchor is reconstructed normally. -/
theorem process_vibration_leading_nulls :
    ∀ (v101 v102 v103 : List VibChanRow) (rate : ℚ) (i : Nat), i < v101.length →
      (process_vibration v101 v102 v103 rate).length = v101.length ∧
      ((∀ k, k ≤ i → (v101.map (fun r => r.timestamp)).getD k none = none) →
        blocksAt (v101.map (fun r => r.timestamp)) i = 0 ∧
        ((process_vibration v101 v102 v103 rate).getD i default).timestamp = none) ∧
      (∀ (j : Nat) (a : ℚ), j < v101.length →
        (v101.map (fun r => r.timestamp)).getD j none = some a →
        blocksAt (v101.map (fun r => r.timestamp)) j =
          blocksAt (v101.map (fun r => r.timestamp)) i →
        ((process_vibration v101 v102 v103 rate).getD i default).timestamp =
          some (a + (cumcountAt (v101.map (fun r => r.timestamp)) i : ℚ) / rate)) := by
  intro v101 v102 v103 rate i hi
  refine ⟨by simp [process_vibration], ?_, ?_⟩
  · intro hall
    have h0 : blocksAt (v101.map (fun r => r.timestamp)) i = 0 :=
      blocksAt_zero_of_prefix_none _ hall
    refine ⟨h0, ?_⟩
    rw [process_vibration_timestamp v101 v102 v103 rate hi]
    unfold reconstructedAt
    rw [blockStartAt_none_of_block_zero _ h0]
    rfl
  · intro j a hj ha hb
    rw [process_vibration_timestamp v101 v102 v103 rate hi]
    exact reconstructedAt_anchor _ rate (by simpa using hi) (by simpa using hj) ha hb

/-- C10 witness: on a channel whose first two rows carry no anchor, row 1
sits in block 0 and its reconstructed timestamp is null. -/
theorem process_vibration_leading_nulls_witness :
    blocksAt (vibLeadingNull.map (fun r => r.timestamp)) 1 = 0 ∧
    ((process_vibration vibLeadingNull vibLeadingNull vibLeadingNull 4).getD 1
        default).timestamp = none :=
  (process_vibration_leading_nulls vibLeadingNull vibLeadingNull vibLeadingNull 4 1
      (by decide)).2.1
    (by
      intro k hk
      interval_cases k <;> decide)

/-! Claim theorems about the loaders. -/

/-- C4: a successfully loaded fiber or vibration table has every value column
as long as its timestamp column; and when all requested datasets exist but
one of them disagrees with the timestamp length, the loader returns a
`LengthMismatch` error instead of a table. -/
theorem loaders_length_invariant :
    (∀ (α : Type) (store : Store α) (fiber_number : Int)
        (sensor_numbers : Sum Int (List Int)) (df : FiberDF α),
        load_fiber_data store fiber_number sensor_numbers = .ok df →
        ∀ c ∈ df.sensors, c.2.length = df.timestamp.length) ∧
    (∀ (α : Type) (store : Store α) (vibration_number : Int) (df : VibDF α),
        load_vibration_data store vibration_number = .ok df →
        df.data.length = df.timestamp.length) ∧
    (∀ (α : Type) (store : Store α) (fiber_number : Int) (sns : List Int) (g : Group α)
        (ts : List α),
        store.lookup (fiberGroupName fiber_number) = some g →
        g.lookup "0" = some ts →
        (∀ s ∈ sns, ∃ arr, g.lookup (toString s) = some arr) →
        (∃ s ∈ sns, ∃ arr, g.lookup (toString s) = some arr ∧ arr.length ≠ ts.length) →
        ∃ nt nv d, load_fiber_data store fiber_number (.inr sns) =
          .error (.LengthMismatch nt nv d (fiberGroupName fiber_number))) ∧
    (∀ (α : Type) (store : Store α) (vibration_number : Int) (g : Group α)
        (tsArr dArr : List α),
        store.lookup (vibrationGroupName vibration_number) = some g →
        g.lookup "Timestamp" = some tsArr →
        g.lookup "Data" = some dArr →
        tsArr.length ≠ dArr.length →
        load_vibration_data store vibration_number =
          .error (.LengthMismatch tsArr.length dArr.length none
            (vibrationGroupName vibration_number))) := by
  refine ⟨?_, ?_, ?_, ?_⟩
  · intro α store fn sensor_numbers df h
    simp only [load_fiber_data] at h
    split at h
    · simp at h
    · rename_i g hg
      split at h
      · simp at h
      · rename_i ts h0
        split at h
        · simp at h
        · rename_i cols hsc
          have hdf : FiberDF.mk ts cols = df := by simpa using h
          subst hdf
          intro c hc
          exact load_sensor_columns_ok_lengths g (fiberGroupName fn) ts _ cols hsc c hc
  · intro α store vn df h
    simp only [load_vibration_data] at h
    split at h
    · simp at h
    · rename_i g hg
      split at h
      · rename_i tsArr dArr hT hD
        split at h
        · simp at h
        · rename_i hne
          have hdf : VibDF.mk tsArr dArr = df := by simpa using h
          subst hdf
          exact (not_ne_iff.mp hne).symm
      · simp at h
  · intro α store fn sns g ts hg h0 hpres hmm
    obtain ⟨nt, nv, d, herr⟩ :=
      load_sensor_columns_mismatch g (fiberGroupName fn) ts sns hpres hmm
    refine ⟨nt, nv, d, ?_⟩
    rw [load_fiber_data_with_timestamp store fn sns hg h0]
    simp only [herr]
  · intro α store vn g tsArr dArr hg ht hd hne
    simp only [load_vibration_data, hg, ht, hd, if_pos hne]

/-- C4 (counterexample): requesting sensors 2 then 1 from the group fibers_1
— where the dataset of sensor 1 exists with length 3 against 2 timestamps but
key 2 is absent — raises `DatasetNotFound` for the missing key 2, not
`LengthMismatch`, even though a requested value dataset disagrees with the
timestamp length. -/
theorem fiber_mismatch_preempted_by_missing_key :
    storeMismatch.lookup (fiberGroupName 1) = some [("0", [0, 0]), ("1", [0, 0, 0])] ∧
    ([("0", [0, 0]), ("1", [0, 0, 0])] : Group Int).lookup (toString (1 : Int)) =
      some [0, 0, 0] ∧
    load_fiber_data storeMismatch 1 (.inr [2, 1]) =
      .error (.DatasetNotFound (toString (2 : Int)) (fiberGroupName 1)) :=
  ⟨by decide, by decide, by rfl⟩

/-- C4 witness: the vibration group with 2 timestamps and 3 values loads to a
`LengthMismatch` error. -/
theorem loaders_length_invariant_witness :
    load_vibration_data storeVibMismatch 1 =
      .error (.LengthMismatch 2 3 none (vibrationGroupName 1)) :=
  loaders_length_invariant.2.2.2 Int storeVibMismatch 1
    [("Timestamp", [0, 1]), ("Data", [5, 6, 7])] [0, 1] [5, 6, 7]
    (by decide) (by decide) (by decide) (by decide)

/-- C5: each of the three loaders, given a store without the requested group,
returns a `GroupNotFound` error carrying the list of group names actually
present in the store. -/
theorem loaders_group_not_found_enumerates :
    ∀ (α : Type) (store : Store α) (fiber_number vibration_number : Int)
      (sensor_numbers : Sum Int (List Int)) (group_name : String),
      (store.lookup (fiberGroupName fiber_number) = none →
        load_fiber_data store fiber_number sensor_numbers =
          .error (.GroupNotFound (fiberGroupName fiber_number) (store.map Prod.fst))) ∧
      (store.lookup (vibrationGroupName vibration_number) = none →
        load_vibration_data store vibration_number =
          .error (.GroupNotFound (vibrationGroupName vibration_number)
            (store.map Prod.fst))) ∧
      (store.lookup group_name = none →
        load_other store group_name =
          .error (.GroupNotFound group_name (store.map Prod.fst))) := by
  intro α store fn vn sns gname
  refine ⟨?_, ?_, ?_⟩
  · intro h
    simp only [load_fiber_data, h]
  · intro h
    simp only [load_vibration_data, h]
  · intro h
    simp only [load_other, h]

/-- C5 witness: requesting the absent groups fibers_2, vibration_1 and
environment_rpm from a store holding only fibers_1 yields `GroupNotFound`
errors listing exactly the available group name. -/
theorem loaders_group_not_found_enumerates_witness :
    load_fiber_data storeFiberOk 2 (.inr [1]) =
      .error (.GroupNotFound (fiberGroupName 2) ["fibers_1"]) ∧
    load_vibration_data storeFiberOk 1 =
      .error (.GroupNotFound (vibrationGroupName 1) ["fibers_1"]) ∧
    load_other storeFiberOk "environment_rpm" =
      .error (.GroupNotFound "environment_rpm" ["fibers_1"]) :=
  ⟨(loaders_group_not_found_enumerates Int storeFiberOk 2 1 (.inr [1])
      "environment_rpm").1 (by decide),
   (loaders_group_not_found_enumerates Int storeFiberOk 2 1 (.inr [1])
      "environment_rpm").2.1 (by decide),
   (loaders_group_not_found_enumerates Int storeFiberOk 2 1 (.inr [1])
      "environment_rpm").2.2 (by decide)⟩

/-- C6 (counterexample): in the existing group fibers_1 the requested key 2
is absent, yet the loader reports the length mismatch of the earlier sensor 1
rather than `DatasetNotFound` — so a missing required key does not always
produce `DatasetNotFound`. -/
theorem fiber_missing_key_preempted_by_mismatch :
    storeMismatch.lookup (fiberGroupName 1) = some [("0", [0, 0]), ("1", [0, 0, 0])] ∧
    ([("0", [0, 0]), ("1", [0, 0, 0])] : Group Int).lookup (toString (2 : Int)) = none ∧
    load_fiber_data storeMismatch 1 (.inr [1, 2]) =
      .error (.LengthMismatch 2 3 (some "1") (fiberGroupName 1)) := by
  refine ⟨by decide, by decide, by rfl⟩

/-- C6 (amended): for an existing fiber group, `load_fiber_data` returns
`DatasetNotFound` exactly when the timestamp dataset 0 is missing, or when
some requested sensor key is missing while every earlier-requested sensor
dataset is present with the timestamp length. -/
theorem load_fiber_dataset_not_found_iff :
    ∀ (α : Type) (store : Store α) (fiber_number : Int) (sns : List Int) (g : Group α),
      store.lookup (fiberGroupName fiber_number) = some g →
      ((∃ e, load_fiber_data store fiber_number (.inr sns) = .error e ∧
          isDatasetNotFound e = true) ↔
        (g.lookup "0" = none ∨
          ∃ ts, g.lookup "0" = some ts ∧ sensorKeyGap g ts sns)) := by
  intro α store fn sns g hg
  cases h0 : g.lookup "0" with
  | none =>
    rw [load_fiber_data_no_timestamp store fn sns hg h0]
    constructor
    · intro _
      exact Or.inl rfl
    · intro _
      exact ⟨.DatasetNotFound "0" (fiberGroupName fn), rfl, rfl⟩
  | some ts =>
    rw [load_fiber_data_with_timestamp store fn sns hg h0]
    cases hsc : load_sensor_columns g (fiberGroupName fn) ts sns with
    | error e2 =>
      constructor
      · rintro ⟨e, he, hkind⟩
        have he2 : (Except.error e2 : Except LoadError (FiberDF α)) = .error e := he
        cases he2
        exact Or.inr ⟨ts, rfl,
          (load_sensor_columns_dnf_iff g (fiberGroupName fn) ts sns).mp ⟨e2, hsc, hkind⟩⟩
      · rintro (hnone | ⟨ts2, hts2, hgap⟩)
        · cases hnone
        · cases hts2
          obtain ⟨e, herr, hkind⟩ :=
            (load_sensor_columns_dnf_iff g (fiberGroupName fn) ts sns).mpr hgap
          rw [hsc] at herr
          cases herr
          exact ⟨e2, rfl, hkind⟩
    | ok cols =>
      constructor
      · rintro ⟨e, he, -⟩
        have he2 : (Except.ok (FiberDF.mk ts cols) :
            Except LoadError (FiberDF α)) = .error e := he
        cases he2
      · rintro (hnone | ⟨ts2, hts2, hgap⟩)
        · cases hnone
        · cases hts2
          obtain ⟨e, herr, -⟩ :=
            (load_sensor_columns_dnf_iff g (fiberGroupName fn) ts sns).mpr hgap
          rw [hsc] at herr
          cases herr

/-- C6 witness: requesting the absent sensor 3 from the existing group
fibers_1 produces a `DatasetNotFound` error. -/
theorem load_fiber_dataset_not_found_iff_witness :
    ∃ e, load_fiber_data storeMismatch 1 (.inr [3]) = .error e ∧
      isDatasetNotFound e = true :=
  (load_fiber_dataset_not_found_iff Int storeMismatch 1 [3]
      [("0", [0, 0]), ("1", [0, 0, 0])] (by decide)).mpr
    (Or.inr ⟨[0, 0], by decide, [], 3, [], rfl, by decide, by simp⟩)

end FormatResearch
